import Mathlib

/-! ## `sn_logging`: `LogFormat` (src/sn_logging/src/lib.rs, lines 96-119) -/

inductive LogFormat
  | default
  | json
deriving DecidableEq

/-- The error message produced by `Error::LoggingConfiguration` in `parse_from_str`. -/
def logFormatErrMsg : String :=
  "The only valid values for this argument are \"default\" or \"json\""

/-- Embedding of `LogFormat::parse_from_str` from `sn_logging/src/lib.rs`. -/
def LogFormat.parse_from_str (val : String) : Except String LogFormat :=
  match val with
  | "default" => Except.ok LogFormat.default
  | "json" => Except.ok LogFormat.json
  | _ => Except.error logFormatErrMsg

/-- Embedding of `LogFormat::as_str` from `sn_logging/src/lib.rs`. -/
def LogFormat.as_str : LogFormat → String
  | LogFormat.default => "default"
  | LogFormat.json => "json"

/-! ## Node registry data model

The registry types live in the `sn_service_management` crate, which is not part of
the reviewed sources; only its caller `sn_node_manager/src/cmd/local.rs` is.  The
data model below is therefore modelled from the specification (sections 3 and 4.1).
The serialization mirrors the single structured registry file of section 6: `Jval`
is the structured value such a file holds. -/

/-- Modelled from the spec: the role of a record, `Node` or `Faucet` (section 3). -/
inductive NodeRole
  | node
  | faucet
deriving DecidableEq

/-- Modelled from the spec: the status enum
`Added, Starting, Running, Stopped, Removed, Failed` (section 3). -/
inductive NodeStatus
  | added
  | starting
  | running
  | stopped
  | removed
  | failed
deriving DecidableEq

/-- Modelled from the spec: one `NodeRecord` of the registry, with the identity,
role and status fields and the optional metadata enumerated in section 3: the
`owner` tag, the `owner_prefix` namespacing tag, and the `connected_peers` count. -/
structure NodeRecord where
  service_name : String
  pid : Option Nat
  peer_id : Option String
  data_dir_path : String
  log_dir_path : String
  bin_path : String
  version : String
  role : NodeRole
  status : NodeStatus
  owner : Option String
  owner_prefix : Option String
  connected_peers : Option Nat
deriving DecidableEq

/-- Modelled from the spec: the `NodeRegistry`, an ordered collection of records
plus registry-level metadata (bootstrap peers), section 3. -/
structure NodeRegistry where
  nodes : List NodeRecord
  bootstrap_peers : List String
deriving DecidableEq

/-- The empty registry, returned by `load` when the file is absent (section 4.1). -/
def NodeRegistry.empty : NodeRegistry :=
  { nodes := [], bootstrap_peers := [] }

/-- A structured serialization value: null, number, string or array. -/
inductive Jval
  | jnull
  | jnum (n : Nat)
  | jstr (s : String)
  | jarr (xs : List Jval)

def encodeOptNat : Option Nat → Jval
  | none => Jval.jnull
  | some n => Jval.jnum n

def decodeOptNat : Jval → Option (Option Nat)
  | Jval.jnull => some none
  | Jval.jnum n => some (some n)
  | _ => none

def encodeOptStr : Option String → Jval
  | none => Jval.jnull
  | some s => Jval.jstr s

def decodeOptStr : Jval → Option (Option String)
  | Jval.jnull => some none
  | Jval.jstr s => some (some s)
  | _ => none

def decodeStr : Jval → Option String
  | Jval.jstr s => some s
  | _ => none

def encodeRole : NodeRole → Jval
  | NodeRole.node => Jval.jstr "node"
  | NodeRole.faucet => Jval.jstr "faucet"

def decodeRole : Jval → Option NodeRole
  | Jval.jstr "node" => some NodeRole.node
  | Jval.jstr "faucet" => some NodeRole.faucet
  | _ => none

def encodeStatus : NodeStatus → Jval
  | NodeStatus.added => Jval.jstr "added"
  | NodeStatus.starting => Jval.jstr "starting"
  | NodeStatus.running => Jval.jstr "running"
  | NodeStatus.stopped => Jval.jstr "stopped"
  | NodeStatus.removed => Jval.jstr "removed"
  | NodeStatus.failed => Jval.jstr "failed"

def decodeStatus : Jval → Option NodeStatus
  | Jval.jstr "added" => some NodeStatus.added
  | Jval.jstr "starting" => some NodeStatus.starting
  | Jval.jstr "running" => some NodeStatus.running
  | Jval.jstr "stopped" => some NodeStatus.stopped
  | Jval.jstr "removed" => some NodeStatus.removed
  | Jval.jstr "failed" => some NodeStatus.failed
  | _ => none

def encodeRecord : NodeRecord → Jval
  | { service_name := sn, pid := pid, peer_id := peer, data_dir_path := dd,
      log_dir_path := ld, bin_path := bp, version := v, role := role,
      status := st, owner := ow, owner_prefix := opfx, connected_peers := cp } =>
    Jval.jarr [Jval.jstr sn, encodeOptNat pid, encodeOptStr peer, Jval.jstr dd,
      Jval.jstr ld, Jval.jstr bp, Jval.jstr v, encodeRole role, encodeStatus st,
      encodeOptStr ow, encodeOptStr opfx, encodeOptNat cp]

def decodeRecord : Jval → Option NodeRecord
  | Jval.jarr [a0, a1, a2, a3, a4, a5, a6, a7, a8, a9, a10, a11] => do
    let service_name ← decodeStr a0
    let pid ← decodeOptNat a1
    let peer_id ← decodeOptStr a2
    let data_dir_path ← decodeStr a3
    let log_dir_path ← decodeStr a4
    let bin_path ← decodeStr a5
    let version ← decodeStr a6
    let role ← decodeRole a7
    let status ← decodeStatus a8
    let owner ← decodeOptStr a9
    let owner_prefix ← decodeOptStr a10
    let connected_peers ← decodeOptNat a11
    pure { service_name := service_name, pid := pid, peer_id := peer_id,
           data_dir_path := data_dir_path, log_dir_path := log_dir_path,
           bin_path := bin_path, version := version, role := role,
           status := status, owner := owner, owner_prefix := owner_prefix,
           connected_peers := connected_peers }
  | _ => none

def decodeRecords : List Jval → Option (List NodeRecord)
  | [] => some []
  | x :: xs =>
    match decodeRecord x, decodeRecords xs with
    | some r, some rs => some (r :: rs)
    | _, _ => none

def decodeStrs : List Jval → Option (List String)
  | [] => some []
  | x :: xs =>
    match decodeStr x, decodeStrs xs with
    | some s, some ss => some (s :: ss)
    | _, _ => none

/-- Modelled from the spec: `NodeRegistry.save` serializes the registry — the
ordered record list plus the registry-level metadata — into the structured file
value (sections 4.1 and 6).  The atomic write-temp-then-rename mechanics are
outside the data-level model. -/
def NodeRegistry.save (reg : NodeRegistry) : Jval :=
  Jval.jarr [Jval.jarr (reg.nodes.map encodeRecord),
    Jval.jarr (reg.bootstrap_peers.map Jval.jstr)]

/-- Modelled from the spec: `NodeRegistry.load` parses the on-disk structured
representation (section 4.1). -/
def NodeRegistry.load : Jval → Option NodeRegistry
  | Jval.jarr [Jval.jarr ns, Jval.jarr ps] => do
    let nodes ← decodeRecords ns
    let bootstrap_peers ← decodeStrs ps
    pure { nodes := nodes, bootstrap_peers := bootstrap_peers }
  | _ => none

/-! ## Command layer: `sn_node_manager/src/cmd/local.rs`

The commands are embedded as computations in a monad `M` over an explicit world
(the registry file and the client data directory) that also records a trace of
the external-effect events the command issues, in order.  Results of external
collaborators are read from an `Oracle`. -/

/-- The two binaries resolved by `get_bin_path` (`ReleaseType` in the source). -/
inductive ReleaseType
  | faucet
  | safenode
deriving DecidableEq

/-- The options record built by `join` and `run` and passed to `run_network`
(`LocalNetworkOptions` in `sn_node_manager/src/local.rs`, fields as assigned in
`cmd/local.rs`). -/
structure LocalNetworkOptions where
  faucet_bin_path : String
  interval : Nat
  join : Bool
  node_count : Nat
  owner : Option String
  owner_prefix : Option String
  peers : Option (List String)
  safenode_bin_path : String
  skip_validation : Bool
  log_format : Option LogFormat
deriving DecidableEq

/-- External-effect events a command can issue, in source order. -/
inductive Event
  | loadRegistry
  | removeClientDataDir
  | killNetwork (keep_directories : Bool)
  | removeRegistryFile
  | getBinPath (release : ReleaseType)
  | getPeersFromArgs
  | runNetwork (options : LocalNetworkOptions)
  | saveRegistry
deriving DecidableEq

/-- Errors of the command layer: the distinguished `A local network is already
running` error raised by `run`, and errors propagated from external calls. -/
inductive Err
  | alreadyRunning
  | ext (s : String)
deriving DecidableEq

/-- The error type of `get_peers_from_args` (`sn_peers_acquisition::error::Error`):
`PeersNotObtained` is handled specially by `join`. -/
inductive PeersError
  | peersNotObtained
  | other (s : String)
deriving DecidableEq

/-- The file-system state a command reads and writes: the registry file at
`get_local_node_registry_path()` (`none` when absent) and whether the user
`safe/client` data directory exists. -/
structure World where
  registryFile : Option NodeRegistry
  clientDataDir : Bool

/-- Results of the external collaborators, as observed by the command layer. -/
structure Oracle where
  killNetworkResult : NodeRegistry → Bool → Except String Unit
  removeFileResult : Except String Unit
  dataDirAvailable : Bool
  removeDirResult : Except String Unit
  faucetBinPath : Except String String
  nodeBinPath : Except String String
  peersResult : Except PeersError (List String)
  runNetworkResult : LocalNetworkOptions → NodeRegistry → Except String NodeRegistry
  saveResult : Except String Unit
  refresh : NodeRegistry → NodeRegistry

/-- The command monad: a computation takes the world and returns the trace of
events it issued, the final world, and its result. -/
def M (α : Type) : Type :=
  World → List Event × World × Except Err α

def M.pure {α : Type} (a : α) : M α := fun w => ([], w, Except.ok a)

def M.bind {α β : Type} (m : M α) (f : α → M β) : M β := fun w =>
  match m w with
  | (tr, w1, Except.error e) => (tr, w1, Except.error e)
  | (tr, w1, Except.ok a) =>
    match f a w1 with
    | (tr2, w2, r) => (tr ++ tr2, w2, r)

instance : Monad M where
  pure := M.pure
  bind := M.bind

/-- Raise an error (`return Err(...)` / the `?` operator on a local error). -/
def throwM {α : Type} (e : Err) : M α := fun w => ([], w, Except.error e)

/-- The registry a load observes: the contents of the file, or the empty registry when
the file is absent (spec section 4.1: absence is not an error). -/
def loadReg (w : World) : NodeRegistry :=
  w.registryFile.getD NodeRegistry.empty

/-- Embedding of `NodeRegistry::load(get_local_node_registry_path()?)`. -/
def loadRegistryM : M NodeRegistry := fun w =>
  ([Event.loadRegistry], w, Except.ok (loadReg w))

/-- Embedding of `kill_network(&local_node_registry, keep_directories)` — an external call of
`sn_node_manager::local`; only its result is observed. -/
def killNetworkM (o : Oracle) (reg : NodeRegistry) (keep_directories : Bool) : M Unit :=
  fun w =>
    ([Event.killNetwork keep_directories], w,
      match o.killNetworkResult reg keep_directories with
      | Except.ok _ => Except.ok ()
      | Except.error e => Except.error (Err.ext e))

/-- Embedding of `std::fs::remove_file(local_reg_path)?`: on success the registry file is gone. -/
def removeRegistryFileM (o : Oracle) : M Unit := fun w =>
  match o.removeFileResult with
  | Except.ok _ =>
    ([Event.removeRegistryFile], { w with registryFile := none }, Except.ok ())
  | Except.error e => ([Event.removeRegistryFile], w, Except.error (Err.ext e))

/-- The clean-up prologue of `run` with `clean=true`: resolve the user data
directory and `remove_dir_all` the `safe/client` directory when it exists. -/
def removeClientDataDirM (o : Oracle) : M Unit := fun w =>
  if o.dataDirAvailable then
    if w.clientDataDir then
      match o.removeDirResult with
      | Except.ok _ =>
        ([Event.removeClientDataDir], { w with clientDataDir := false }, Except.ok ())
      | Except.error e => ([Event.removeClientDataDir], w, Except.error (Err.ext e))
    else ([], w, Except.ok ())
  else ([], w, Except.error (Err.ext "Could not obtain the user data directory"))

/-- Embedding of `get_bin_path(build, path, release_type, version, release_repo, verbosity)` —
binary resolution is an external collaborator; only its result is observed. -/
def getBinPathM (o : Oracle) (release : ReleaseType) : M String := fun w =>
  ([Event.getBinPath release], w,
    match release with
    | ReleaseType.faucet =>
      match o.faucetBinPath with
      | Except.ok p => Except.ok p
      | Except.error e => Except.error (Err.ext e)
    | ReleaseType.safenode =>
      match o.nodeBinPath with
      | Except.ok p => Except.ok p
      | Except.error e => Except.error (Err.ext e))

/-- The peer-acquisition match of `join` (`cmd/local.rs` lines 67-75):
`Ok(peers)` gives `Some(peers)`, `PeersNotObtained` gives `None`, any other
error is returned. -/
def getPeersM (o : Oracle) : M (Option (List String)) := fun w =>
  ([Event.getPeersFromArgs], w,
    match o.peersResult with
    | Except.ok ps => Except.ok (some ps)
    | Except.error PeersError.peersNotObtained => Except.ok none
    | Except.error (PeersError.other s) => Except.error (Err.ext s))

/-- Embedding of `run_network(options, &mut local_node_registry, &ServiceController)` — an
external call; it may mutate the in-memory registry, so its oracle result is the
updated registry. -/
def runNetworkM (o : Oracle) (options : LocalNetworkOptions) (reg : NodeRegistry) :
    M NodeRegistry := fun w =>
  ([Event.runNetwork options], w,
    match o.runNetworkResult options reg with
    | Except.ok reg2 => Except.ok reg2
    | Except.error e => Except.error (Err.ext e))

/-- Embedding of `local_node_registry.save()?`: on success the registry file holds the
in-memory registry. -/
def saveRegistryM (o : Oracle) (reg : NodeRegistry) : M Unit := fun w =>
  match o.saveResult with
  | Except.ok _ =>
    ([Event.saveRegistry], { w with registryFile := some reg }, Except.ok ())
  | Except.error e => ([Event.saveRegistry], w, Except.error (Err.ext e))

/-- Modelled from the spec: `status_report` (the Status Reporter of
`sn_node_manager`, whose sources are not under the reviewed tree; only its caller
`cmd/local.rs` is).  Per section 4.4 it re-queries the controller per record and
corrects stale statuses (the `Oracle.refresh` function), "always persists corrected
statuses back to the registry before returning", and under the `fail` flag returns
an error when any node is not `Running`. -/
def status_report (o : Oracle) (reg : NodeRegistry) (details : Bool) (json : Bool)
    (fail : Bool) : M NodeRegistry := do
  let refreshed := o.refresh reg
  saveRegistryM o refreshed
  if fail && refreshed.nodes.any (fun r => !(r.status == NodeStatus.running)) then
    throwM (Err.ext "One or more nodes is not in a running state")
  else
    M.pure refreshed

/-- Embedding of `kill` from `cmd/local.rs` lines 92-105: load the registry; when it has no
nodes do nothing, otherwise `kill_network` then remove the registry file. -/
def kill (o : Oracle) (keep_directories : Bool) : M Unit := do
  let local_node_registry ← loadRegistryM
  if local_node_registry.nodes.isEmpty then
    M.pure ()
  else do
    killNetworkM o local_node_registry keep_directories
    removeRegistryFileM o

/-- Embedding of `run` from `cmd/local.rs` lines 107-184: with `clean` the client data
directory is removed and a full `kill(false)` precedes the registry load; without
`clean` a non-empty loaded registry aborts with the already-running error.  Then
binaries are resolved, options are built with `join=false` and `peers=None`,
`run_network` is called and the registry is saved. -/
def run (o : Oracle) (clean : Bool) (count : Nat) (interval : Nat)
    (log_format : Option LogFormat) (owner : Option String)
    ( owner_prefix : Option String) (skip_validation : Bool) : M Unit := do
  let local_node_registry ←
    if clean then do
      removeClientDataDirM o
      kill o false
      loadRegistryM
    else do
      let r ← loadRegistryM
      if r.nodes.isEmpty then
        M.pure r
      else
        throwM Err.alreadyRunning
  let faucet_path ← getBinPathM o ReleaseType.faucet
  let node_path ← getBinPathM o ReleaseType.safenode
  let options : LocalNetworkOptions :=
    { faucet_bin_path := faucet_path, join := false, interval := interval,
      node_count := count, owner := owner, owner_prefix := owner_prefix,
      peers := none, safenode_bin_path := node_path,
      skip_validation := skip_validation, log_format := log_format }
  let updated ← runNetworkM o options local_node_registry
  saveRegistryM o updated

/-- Embedding of `join` from `cmd/local.rs` lines 25-90: load the registry, resolve both
binaries, acquire peers (with the `PeersNotObtained` fallback to `None`), build
options with `join=true`, and call `run_network`.  `join` does not save the
registry itself. -/
def join (o : Oracle) (count : Nat) (interval : Nat) (log_format : Option LogFormat)
    (owner : Option String) ( owner_prefix : Option String)
    (skip_validation : Bool) : M Unit := do
  let local_node_registry ← loadRegistryM
  let faucet_path ← getBinPathM o ReleaseType.faucet
  let node_path ← getBinPathM o ReleaseType.safenode
  let peers ← getPeersM o
  let options : LocalNetworkOptions :=
    { faucet_bin_path := faucet_path, interval := interval, join := true,
      node_count := count, owner := owner, owner_prefix := owner_prefix,
      peers := peers, safenode_bin_path := node_path,
      skip_validation := skip_validation, log_format := log_format }
  let _ ← runNetworkM o options local_node_registry
  M.pure ()

/-- Embedding of `status` from `cmd/local.rs` lines 186-201: load the registry, run
`status_report`, save the (refreshed) registry. -/
def status (o : Oracle) (details : Bool) (fail : Bool) (json : Bool) : M Unit := do
  let local_node_registry ← loadRegistryM
  let refreshed ← status_report o local_node_registry details json fail
  saveRegistryM o refreshed

/-! ## Trace predicates -/

/-- No run of the computation can produce the already-running error. -/
def NoAR {α : Type} (m : M α) : Prop :=
  ∀ w, (m w).2.2 ≠ Except.error Err.alreadyRunning

/-- Every `run_network` call issued by the computation satisfies `P` on its options. -/
def OptsSatisfy (P : LocalNetworkOptions → Prop) {α : Type} (m : M α) : Prop :=
  ∀ w opts, Event.runNetwork opts ∈ (m w).1 → P opts

/-! ## Concrete sample data -/

def sampleRecord : NodeRecord :=
  { service_name := "safenode-local1", pid := some 1000, peer_id := some "12D3KooWSample",
    data_dir_path := "/data/safenode-local1", log_dir_path := "/log/safenode-local1",
    bin_path := "/bin/safenode", version := "0.1.0", role := NodeRole.node,
    status := NodeStatus.running, owner := none, owner_prefix := none,
    connected_peers := some 3 }

def sampleRegistry : NodeRegistry :=
  { nodes := [sampleRecord], bootstrap_peers := ["/ip4/127.0.0.1/tcp/1"] }

def oracleOk : Oracle :=
  { killNetworkResult := fun _ _ => Except.ok (),
    removeFileResult := Except.ok (),
    dataDirAvailable := true,
    removeDirResult := Except.ok (),
    faucetBinPath := Except.ok "/bin/faucet",
    nodeBinPath := Except.ok "/bin/safenode",
    peersResult := Except.ok ["/ip4/127.0.0.1/tcp/1"],
    runNetworkResult := fun _ reg => Except.ok reg,
    saveResult := Except.ok (),
    refresh := fun reg => reg }

def oracleKillFails : Oracle :=
  { oracleOk with killNetworkResult := fun _ _ => Except.error "failed to stop node" }

def oracleSaveFails : Oracle :=
  { oracleOk with saveResult := Except.error "could not write registry" }

def oraclePeersNotObtained : Oracle :=
  { oracleOk with peersResult := Except.error PeersError.peersNotObtained }

def oraclePeersOther : Oracle :=
  { oracleOk with peersResult := Except.error (PeersError.other "failed to parse multiaddr") }

def worldEmpty : World := { registryFile := none, clientDataDir := false }

def worldRunning : World := { registryFile := some sampleRegistry, clientDataDir := true }

def optsRunSample : LocalNetworkOptions :=
  { faucet_bin_path := "/bin/faucet", interval := 100, join := false, node_count := 3,
    owner := none, owner_prefix := none, peers := none,
    safenode_bin_path := "/bin/safenode", skip_validation := false, log_format := none }

def optsJoinSample : LocalNetworkOptions :=
  { faucet_bin_path := "/bin/faucet", interval := 100, join := true, node_count := 3,
    owner := none, owner_prefix := none, peers := some ["/ip4/127.0.0.1/tcp/1"],
    safenode_bin_path := "/bin/safenode", skip_validation := false, log_format := none }

/-! ## Computation lemmas for `M` -/

@[simp]
theorem M.bind_def {α β : Type} (m : M α) (f : α → M β) : (m >>= f) = M.bind m f := rfl

@[simp]
theorem M.pure_def {α : Type} (a : α) : (Pure.pure a : M α) = M.pure a := rfl

theorem M.bind_ok {α β : Type} {m : M α} {f : α → M β} {w w1 : World}
    {tr : List Event} {a : α} (h : m w = (tr, w1, Except.ok a)) :
    M.bind m f w = (tr ++ (f a w1).1, (f a w1).2.1, (f a w1).2.2) := by
  unfold M.bind
  rw [h]

theorem M.bind_error {α β : Type} {m : M α} {f : α → M β} {w w1 : World}
    {tr : List Event} {e : Err} (h : m w = (tr, w1, Except.error e)) :
    M.bind m f w = (tr, w1, Except.error e) := by
  unfold M.bind
  rw [h]

theorem M.bind_ne_ok {α β : Type} {m : M α} {f : α → M β} {w : World} {b : β}
    (h : ∀ a w', (f a w').2.2 ≠ Except.ok b) :
    (M.bind m f w).2.2 ≠ Except.ok b := by
  rcases hmw : m w with ⟨tr, w1, r⟩
  cases r with
  | error e => rw [M.bind_error hmw]; simp
  | ok a => rw [M.bind_ok hmw]; exact h a w1

/-! ## `NoAR` lemmas -/

theorem noAR_bind {α β : Type} {m : M α} {f : α → M β}
    (hm : NoAR m) (hf : ∀ a, NoAR (f a)) : NoAR (M.bind m f) := by
  intro w
  rcases hmw : m w with ⟨tr, w1, r⟩
  cases r with
  | error e =>
    have he : e ≠ Err.alreadyRunning := by
      intro hcon
      apply hm w
      rw [hmw, hcon]
    rw [M.bind_error hmw]
    simp [he]
  | ok a =>
    rw [M.bind_ok hmw]
    exact hf a w1

theorem noAR_pure {α : Type} (a : α) : NoAR (M.pure a) := by
  intro w
  simp [M.pure]

theorem noAR_loadRegistryM : NoAR loadRegistryM := by
  intro w
  simp [loadRegistryM]

theorem noAR_killNetworkM (o : Oracle) (reg : NodeRegistry) (k : Bool) :
    NoAR (killNetworkM o reg k) := by
  intro w
  rcases h : o.killNetworkResult reg k with e | u <;> simp [killNetworkM, h]

theorem noAR_removeRegistryFileM (o : Oracle) : NoAR (removeRegistryFileM o) := by
  intro w
  rcases h : o.removeFileResult with e | u <;> simp [removeRegistryFileM, h]

theorem noAR_removeClientDataDirM (o : Oracle) : NoAR (removeClientDataDirM o) := by
  intro w
  cases hd : o.dataDirAvailable <;> cases hc : w.clientDataDir <;>
    rcases hr : o.removeDirResult with e | u <;>
    simp [removeClientDataDirM, hd, hc, hr]

theorem noAR_getBinPathM (o : Oracle) (rt : ReleaseType) : NoAR (getBinPathM o rt) := by
  intro w
  cases rt <;> [rcases h : o.faucetBinPath with e | p; rcases h : o.nodeBinPath with e | p] <;>
    simp [getBinPathM, h]

theorem noAR_getPeersM (o : Oracle) : NoAR (getPeersM o) := by
  intro w
  rcases h : o.peersResult with e | ps
  · rcases e with _ | s <;> simp [getPeersM, h]
  · simp [getPeersM, h]

theorem noAR_runNetworkM (o : Oracle) (opts : LocalNetworkOptions) (reg : NodeRegistry) :
    NoAR (runNetworkM o opts reg) := by
  intro w
  rcases h : o.runNetworkResult opts reg with e | r <;> simp [runNetworkM, h]

theorem noAR_saveRegistryM (o : Oracle) (reg : NodeRegistry) : NoAR (saveRegistryM o reg) := by
  intro w
  rcases h : o.saveResult with e | u <;> simp [saveRegistryM, h]

theorem noAR_kill (o : Oracle) (k : Bool) : NoAR (kill o k) := by
  unfold kill
  simp only [M.bind_def, M.pure_def]
  apply noAR_bind noAR_loadRegistryM
  intro reg
  cases h : reg.nodes.isEmpty
  · simp only [h, Bool.false_eq_true, if_false]
    exact noAR_bind (noAR_killNetworkM o reg k) (fun _ => noAR_removeRegistryFileM o)
  · simp only [h, if_true]
    exact noAR_pure ()

theorem noAR_run_clean (o : Oracle) (c i : Nat) (lf : Option LogFormat)
    (ow op : Option String) (sv : Bool) :
    NoAR (run o true c i lf ow op sv) := by
  unfold run
  simp only [M.bind_def, M.pure_def, if_true]
  apply noAR_bind (noAR_removeClientDataDirM o)
  intro u1
  apply noAR_bind (noAR_kill o false)
  intro u2
  apply noAR_bind noAR_loadRegistryM
  intro reg
  apply noAR_bind (noAR_getBinPathM o ReleaseType.faucet)
  intro fp
  apply noAR_bind (noAR_getBinPathM o ReleaseType.safenode)
  intro np
  apply noAR_bind (noAR_runNetworkM o _ reg)
  intro upd
  exact noAR_saveRegistryM o upd

/-! ## `OptsSatisfy` lemmas -/

theorem optsP_bind {P : LocalNetworkOptions → Prop} {α β : Type} {m : M α} {f : α → M β}
    (hm : OptsSatisfy P m) (hf : ∀ a, OptsSatisfy P (f a)) : OptsSatisfy P (M.bind m f) := by
  intro w opts hmem
  rcases hmw : m w with ⟨tr, w1, r⟩
  cases r with
  | error e =>
    rw [M.bind_error hmw] at hmem
    exact hm w opts (by rw [hmw]; exact hmem)
  | ok a =>
    rw [M.bind_ok hmw] at hmem
    have hmem2 : Event.runNetwork opts ∈ tr ++ (f a w1).1 := hmem
    rcases List.mem_append.mp hmem2 with h1 | h2
    · exact hm w opts (by rw [hmw]; exact h1)
    · exact hf a w1 opts h2

theorem optsP_pure {P : LocalNetworkOptions → Prop} {α : Type} (a : α) :
    OptsSatisfy P (M.pure a) := by
  intro w opts h
  simp [M.pure] at h

theorem optsP_throwM {P : LocalNetworkOptions → Prop} {α : Type} (e : Err) :
    OptsSatisfy P (throwM (α := α) e) := by
  intro w opts h
  simp [throwM] at h

theorem optsP_loadRegistryM {P : LocalNetworkOptions → Prop} :
    OptsSatisfy P loadRegistryM := by
  intro w opts h
  simp [loadRegistryM] at h

theorem optsP_killNetworkM {P : LocalNetworkOptions → Prop} (o : Oracle)
    (reg : NodeRegistry) (k : Bool) : OptsSatisfy P (killNetworkM o reg k) := by
  intro w opts h
  simp [killNetworkM] at h

theorem optsP_removeRegistryFileM {P : LocalNetworkOptions → Prop} (o : Oracle) :
    OptsSatisfy P (removeRegistryFileM o) := by
  intro w opts h
  rcases hr : o.removeFileResult with e | u <;> simp [removeRegistryFileM, hr] at h

theorem optsP_removeClientDataDirM {P : LocalNetworkOptions → Prop} (o : Oracle) :
    OptsSatisfy P (removeClientDataDirM o) := by
  intro w opts h
  cases hd : o.dataDirAvailable <;> cases hc : w.clientDataDir <;>
    rcases hr : o.removeDirResult with e | u <;>
    simp [removeClientDataDirM, hd, hc, hr] at h

theorem optsP_getBinPathM {P : LocalNetworkOptions → Prop} (o : Oracle)
    (rt : ReleaseType) : OptsSatisfy P (getBinPathM o rt) := by
  intro w opts h
  simp [getBinPathM] at h

theorem optsP_getPeersM {P : LocalNetworkOptions → Prop} (o : Oracle) :
    OptsSatisfy P (getPeersM o) := by
  intro w opts h
  simp [getPeersM] at h

theorem optsP_saveRegistryM {P : LocalNetworkOptions → Prop} (o : Oracle)
    (reg : NodeRegistry) : OptsSatisfy P (saveRegistryM o reg) := by
  intro w opts h
  rcases hr : o.saveResult with e | u <;> simp [saveRegistryM, hr] at h

theorem optsP_runNetworkM {P : LocalNetworkOptions → Prop} (o : Oracle)
    (reg : NodeRegistry) (opts0 : LocalNetworkOptions) (hP : P opts0) :
    OptsSatisfy P (runNetworkM o opts0 reg) := by
  intro w opts h
  simp [runNetworkM] at h
  subst h
  exact hP

theorem optsP_ite {P : LocalNetworkOptions → Prop} {α : Type} {c : Prop} [Decidable c]
    {m1 m2 : M α} (h1 : OptsSatisfy P m1) (h2 : OptsSatisfy P m2) :
    OptsSatisfy P (if c then m1 else m2) := by
  by_cases hc : c
  · simpa [hc] using h1
  · simpa [hc] using h2

theorem optsP_kill {P : LocalNetworkOptions → Prop} (o : Oracle) (k : Bool) :
    OptsSatisfy P (kill o k) := by
  unfold kill
  simp only [M.bind_def, M.pure_def]
  exact optsP_bind optsP_loadRegistryM (fun reg =>
    optsP_ite (optsP_pure ()) (optsP_bind (optsP_killNetworkM o reg k)
      (fun _ => optsP_removeRegistryFileM o)))

/-! ## Equation lemmas for the commands -/

theorem kill_eq_ok (o : Oracle) (k : Bool) (w : World) (reg : NodeRegistry)
    (hw : w.registryFile = some reg) (hne : reg.nodes ≠ [])
    (hk : o.killNetworkResult reg k = Except.ok ())
    (hrf : o.removeFileResult = Except.ok ()) :
    kill o k w =
      ([Event.loadRegistry, Event.killNetwork k, Event.removeRegistryFile],
        { w with registryFile := none }, Except.ok ()) := by
  have hl : loadReg w = reg := by simp [loadReg, hw]
  simp [kill, M.bind, loadRegistryM, hl, hne, killNetworkM, hk, removeRegistryFileM, hrf]

theorem join_eq_peers_other (o : Oracle) (c i : Nat) (lf : Option LogFormat)
    (ow op : Option String) (sv : Bool) (w : World) (fp np : String) (s : String)
    (hf : o.faucetBinPath = Except.ok fp) (hn : o.nodeBinPath = Except.ok np)
    (hp : o.peersResult = Except.error (PeersError.other s)) :
    join o c i lf ow op sv w =
      ([Event.loadRegistry, Event.getBinPath ReleaseType.faucet,
        Event.getBinPath ReleaseType.safenode, Event.getPeersFromArgs], w,
        Except.error (Err.ext s)) := by
  simp [join, M.bind, M.pure, loadRegistryM, getBinPathM, getPeersM, hf, hn, hp]

theorem join_eq_peers_not_obtained (o : Oracle) (c i : Nat) (lf : Option LogFormat)
    (ow op : Option String) (sv : Bool) (w : World) (fp np : String)
    (hf : o.faucetBinPath = Except.ok fp) (hn : o.nodeBinPath = Except.ok np)
    (hp : o.peersResult = Except.error PeersError.peersNotObtained) :
    ∃ r, join o c i lf ow op sv w =
      ([Event.loadRegistry, Event.getBinPath ReleaseType.faucet,
        Event.getBinPath ReleaseType.safenode, Event.getPeersFromArgs,
        Event.runNetwork
          { faucet_bin_path := fp, interval := i, join := true, node_count := c,
            owner := ow, owner_prefix := op, peers := none, safenode_bin_path := np,
            skip_validation := sv, log_format := lf }], w, r) := by
  rcases hr : o.runNetworkResult
      { faucet_bin_path := fp, interval := i, join := true, node_count := c,
        owner := ow, owner_prefix := op, peers := none, safenode_bin_path := np,
        skip_validation := sv, log_format := lf } (loadReg w) with e2 | reg2
  · exact ⟨Except.error (Err.ext e2), by
      simp [join, M.bind, M.pure, loadRegistryM, getBinPathM, getPeersM, runNetworkM,
        hf, hn, hp, hr]⟩
  · exact ⟨Except.ok (), by
      simp [join, M.bind, M.pure, loadRegistryM, getBinPathM, getPeersM, runNetworkM,
        hf, hn, hp, hr]⟩

theorem join_eq_peers_ok (o : Oracle) (c i : Nat) (lf : Option LogFormat)
    (ow op : Option String) (sv : Bool) (w : World) (fp np : String) (ps : List String)
    (hf : o.faucetBinPath = Except.ok fp) (hn : o.nodeBinPath = Except.ok np)
    (hp : o.peersResult = Except.ok ps) :
    ∃ r, join o c i lf ow op sv w =
      ([Event.loadRegistry, Event.getBinPath ReleaseType.faucet,
        Event.getBinPath ReleaseType.safenode, Event.getPeersFromArgs,
        Event.runNetwork
          { faucet_bin_path := fp, interval := i, join := true, node_count := c,
            owner := ow, owner_prefix := op, peers := some ps,
            safenode_bin_path := np, skip_validation := sv, log_format := lf }], w, r) := by
  rcases hr : o.runNetworkResult
      { faucet_bin_path := fp, interval := i, join := true, node_count := c,
        owner := ow, owner_prefix := op, peers := some ps, safenode_bin_path := np,
        skip_validation := sv, log_format := lf } (loadReg w) with e2 | reg2
  · exact ⟨Except.error (Err.ext e2), by
      simp [join, M.bind, M.pure, loadRegistryM, getBinPathM, getPeersM, runNetworkM,
        hf, hn, hp, hr]⟩
  · exact ⟨Except.ok (), by
      simp [join, M.bind, M.pure, loadRegistryM, getBinPathM, getPeersM, runNetworkM,
        hf, hn, hp, hr]⟩

/-! ## Serialization round-trip lemmas -/

theorem decodeRecord_encode (r : NodeRecord) : decodeRecord (encodeRecord r) = some r := by
  rcases r with ⟨sn, pid, peer, dd, ld, bp, v, role, st, ow, opfx, cp⟩
  cases pid <;> cases peer <;> cases ow <;> cases opfx <;> cases cp <;> cases role <;>
    cases st <;> rfl

theorem decodeRecords_encode (rs : List NodeRecord) :
    decodeRecords (rs.map encodeRecord) = some rs := by
  induction rs with
  | nil => rfl
  | cons r rs ih => simp [decodeRecords, decodeRecord_encode, ih]

theorem decodeStrs_encode (ss : List String) :
    decodeStrs (ss.map Jval.jstr) = some ss := by
  induction ss with
  | nil => rfl
  | cons s ss ih => simp [decodeStrs, decodeStr, ih]

/-! ## Claim theorems -/

/-- Claim C1: a `run` invocation with `clean=false` over a loaded registry that
contains at least one node record returns the already-running error immediately
after the registry load — the trace shows no Service Controller operation, no
binary resolution and no `run_network` call — while with an empty node list no
already-running error is ever returned. -/
theorem run_nonclean_already_running (o : Oracle) (w : World) (c i : Nat)
    (lf : Option LogFormat) (ow op : Option String) (sv : Bool) :
    (∀ reg, w.registryFile = some reg → reg.nodes ≠ [] →
      run o false c i lf ow op sv w =
        ([Event.loadRegistry], w, Except.error Err.alreadyRunning)) ∧
    ((loadReg w).nodes = [] →
      (run o false c i lf ow op sv w).2.2 ≠ Except.error Err.alreadyRunning) := by
  constructor
  · intro reg hw hne
    have hl : loadReg w = reg := by simp [loadReg, hw]
    have hie : reg.nodes.isEmpty = false := by
      cases hn : reg.nodes
      · exact absurd hn hne
      · rfl
    unfold run
    simp only [M.bind_def, M.pure_def, Bool.false_eq_true, if_false]
    rw [M.bind_ok (show loadRegistryM w = ([Event.loadRegistry], w, Except.ok reg) by
      simp [loadRegistryM, hl])]
    simp only [hie, Bool.false_eq_true, if_false]
    rw [M.bind_error
      (show throwM Err.alreadyRunning w = ([], w, Except.error Err.alreadyRunning) from rfl)]
    simp
  · intro h
    unfold run
    simp only [M.bind_def, M.pure_def, Bool.false_eq_true, if_false]
    rw [M.bind_ok
      (show loadRegistryM w = ([Event.loadRegistry], w, Except.ok (loadReg w)) from rfl)]
    dsimp only
    simp only [h, List.isEmpty_nil, if_true]
    apply noAR_bind (noAR_pure (loadReg w))
    intro y
    apply noAR_bind (noAR_getBinPathM o ReleaseType.faucet)
    intro fp
    apply noAR_bind (noAR_getBinPathM o ReleaseType.safenode)
    intro np
    apply noAR_bind (noAR_runNetworkM o _ y)
    intro upd
    exact noAR_saveRegistryM o upd

theorem run_nonclean_already_running_witness :
    (run oracleOk false 3 100 none none none false worldRunning =
      ([Event.loadRegistry], worldRunning, Except.error Err.alreadyRunning)) ∧
    ((loadReg worldEmpty).nodes = [] ∧
      (run oracleOk false 3 100 none none none false worldEmpty).2.2 ≠
        Except.error Err.alreadyRunning) :=
  ⟨(run_nonclean_already_running oracleOk worldRunning 3 100 none none none false).1
      sampleRegistry rfl (by decide),
   by decide,
   (run_nonclean_already_running oracleOk worldEmpty 3 100 none none none false).2 (by decide)⟩

/-- Claim C2: every return path of `status` — including the error return under the
`fail` flag — has invoked the registry save, and when saving succeeds the
registry file holds the refreshed (corrected) record set. -/
theorem status_always_saves (o : Oracle) (d f j : Bool) (w : World) :
    Event.saveRegistry ∈ (status o d f j w).1 ∧
    (o.saveResult = Except.ok () →
      ((status o d f j w).2.1).registryFile = some (o.refresh (loadReg w))) := by
  rcases hs : o.saveResult with e | u
  · constructor
    · simp [status, status_report, M.bind, loadRegistryM, saveRegistryM, hs]
    · intro hcon
      simp [hs] at hcon
  · cases u
    cases f
    · constructor <;>
        simp [status, status_report, M.bind, M.pure, loadRegistryM, saveRegistryM, hs]
    · by_cases hex : ∃ x ∈ (o.refresh (loadReg w)).nodes, ¬x.status = NodeStatus.running
      · constructor <;>
          simp [status, status_report, M.bind, M.pure, loadRegistryM, saveRegistryM, hs,
            throwM, hex]
      · constructor <;>
          simp [status, status_report, M.bind, M.pure, loadRegistryM, saveRegistryM, hs,
            throwM, hex]

theorem status_always_saves_witness :
    Event.saveRegistry ∈ (status oracleOk true false false worldRunning).1 ∧
    ((status oracleOk true false false worldRunning).2.1).registryFile =
      some (oracleOk.refresh (loadReg worldRunning)) :=
  ⟨(status_always_saves oracleOk true false false worldRunning).1,
   (status_always_saves oracleOk true false false worldRunning).2 rfl⟩

/-- Claim C3: when `kill` finds a non-empty registry, the registry file is deleted
only after `kill_network` has returned success: on a `kill_network` error the error
propagates, no file removal appears in the trace and the registry file is left in
place; conversely a file-removal event in the trace implies `kill_network`
succeeded. -/
theorem kill_file_removed_only_after_kill_network (o : Oracle) (keep_directories : Bool)
    (w : World) (reg : NodeRegistry) (hw : w.registryFile = some reg)
    (hne : reg.nodes ≠ []) :
    (∀ e, o.killNetworkResult reg keep_directories = Except.error e →
      kill o keep_directories w =
        ([Event.loadRegistry, Event.killNetwork keep_directories], w,
          Except.error (Err.ext e))) ∧
    (Event.removeRegistryFile ∈ (kill o keep_directories w).1 →
      o.killNetworkResult reg keep_directories = Except.ok ()) := by
  have hl : loadReg w = reg := by simp [loadReg, hw]
  constructor
  · intro e hk
    simp [kill, M.bind, loadRegistryM, hl, hne, killNetworkM, hk]
  · intro h
    rcases hk : o.killNetworkResult reg keep_directories with e | u
    · simp [kill, M.bind, loadRegistryM, hl, hne, killNetworkM, hk] at h
    · cases u
      rfl

theorem kill_file_removed_only_after_kill_network_witness :
    kill oracleKillFails true worldRunning =
      ([Event.loadRegistry, Event.killNetwork true], worldRunning,
        Except.error (Err.ext "failed to stop node")) :=
  (kill_file_removed_only_after_kill_network oracleKillFails true worldRunning
      sampleRegistry rfl (by decide)).1 "failed to stop node" rfl

/-- Claim C4: a `kill` whose loaded registry has no node records succeeds while
issuing no `kill_network` call and no registry-file removal and leaving the world
unchanged; a second `kill` on the emptied registry therefore behaves identically
(idempotence). -/
theorem kill_empty_registry_noop (o : Oracle) (keep_directories : Bool) (w : World)
    (h : (loadReg w).nodes = []) :
    kill o keep_directories w = ([Event.loadRegistry], w, Except.ok ()) ∧
    kill o keep_directories (kill o keep_directories w).2.1 =
      ([Event.loadRegistry], w, Except.ok ()) := by
  have h1 : kill o keep_directories w = ([Event.loadRegistry], w, Except.ok ()) := by
    simp [kill, M.bind, loadRegistryM, h, M.pure]
  refine ⟨h1, ?_⟩
  rw [h1]
  exact h1

theorem kill_empty_registry_noop_witness :
    kill oracleOk false worldEmpty = ([Event.loadRegistry], worldEmpty, Except.ok ()) :=
  (kill_empty_registry_noop oracleOk false worldEmpty (by decide)).1

/-- Claim C5: every `run_network` call issued by `run` carries options with
`join=false` and an empty peer list (`None`), and every `run_network` call issued
by `join` carries options with `join=true` and the caller-resolved peer list
(`Some` of the acquired peers, or `None` under the `PeersNotObtained` fallback). -/
theorem run_join_options (o : Oracle) (clean : Bool) (c i : Nat)
    (lf : Option LogFormat) (ow op : Option String) (sv : Bool) :
    (∀ w opts, Event.runNetwork opts ∈ (run o clean c i lf ow op sv w).1 →
      opts.join = false ∧ opts.peers = none) ∧
    (∀ w opts, Event.runNetwork opts ∈ (join o c i lf ow op sv w).1 →
      opts.join = true ∧
        opts.peers = (match o.peersResult with
          | Except.ok ps => some ps
          | Except.error _ => none)) := by
  constructor
  · show OptsSatisfy _ (run o clean c i lf ow op sv)
    unfold run
    simp only [M.bind_def, M.pure_def]
    refine optsP_ite ?_ ?_
    · exact optsP_bind (optsP_removeClientDataDirM o) (fun _ =>
        optsP_bind (optsP_kill o false) (fun _ =>
          optsP_bind optsP_loadRegistryM (fun reg =>
            optsP_bind (optsP_getBinPathM o ReleaseType.faucet) (fun fp =>
              optsP_bind (optsP_getBinPathM o ReleaseType.safenode) (fun np =>
                optsP_bind (optsP_runNetworkM o reg _ ⟨rfl, rfl⟩) (fun upd =>
                  optsP_saveRegistryM o upd))))))
    · exact optsP_bind optsP_loadRegistryM (fun r =>
        optsP_ite
          (optsP_bind (optsP_pure r) (fun reg =>
            optsP_bind (optsP_getBinPathM o ReleaseType.faucet) (fun fp =>
              optsP_bind (optsP_getBinPathM o ReleaseType.safenode) (fun np =>
                optsP_bind (optsP_runNetworkM o reg _ ⟨rfl, rfl⟩) (fun upd =>
                  optsP_saveRegistryM o upd)))))
          (optsP_bind (optsP_throwM Err.alreadyRunning) (fun reg =>
            optsP_bind (optsP_getBinPathM o ReleaseType.faucet) (fun fp =>
              optsP_bind (optsP_getBinPathM o ReleaseType.safenode) (fun np =>
                optsP_bind (optsP_runNetworkM o reg _ ⟨rfl, rfl⟩) (fun upd =>
                  optsP_saveRegistryM o upd))))))
  · intro w opts h
    rcases hf : o.faucetBinPath with e | fp
    · simp [join, M.bind, M.pure, loadRegistryM, getBinPathM, hf] at h
    · rcases hn : o.nodeBinPath with e | np
      · simp [join, M.bind, M.pure, loadRegistryM, getBinPathM, hf, hn] at h
      · rcases hp : o.peersResult with pe | ps
        · rcases pe with _ | s
          · obtain ⟨r, heq⟩ :=
              join_eq_peers_not_obtained o c i lf ow op sv w fp np hf hn hp
            rw [heq] at h
            simp at h
            subst h
            exact ⟨rfl, by simp [hp]⟩
          · rw [join_eq_peers_other o c i lf ow op sv w fp np s hf hn hp] at h
            simp at h
        · obtain ⟨r, heq⟩ := join_eq_peers_ok o c i lf ow op sv w fp np ps hf hn hp
          rw [heq] at h
          simp at h
          subst h
          exact ⟨rfl, by simp [hp]⟩

theorem run_join_options_witness :
    (Event.runNetwork optsRunSample ∈
        (run oracleOk false 3 100 none none none false worldEmpty).1 ∧
      optsRunSample.join = false ∧ optsRunSample.peers = none) ∧
    (Event.runNetwork optsJoinSample ∈
        (join oracleOk 3 100 none none none false worldEmpty).1 ∧
      optsJoinSample.join = true ∧
      optsJoinSample.peers = some ["/ip4/127.0.0.1/tcp/1"]) :=
  ⟨⟨by decide,
    (run_join_options oracleOk false 3 100 none none none false).1 worldEmpty
      optsRunSample (by decide)⟩,
   ⟨by decide,
    (run_join_options oracleOk false 3 100 none none none false).2 worldEmpty
      optsJoinSample (by decide)⟩⟩

/-- Claim C6: when the registry save fails, `status` returns exactly that
persistence error, and `run` can never return success: in particular on the
otherwise-successful path `run` returns the save error after the full event
sequence. -/
theorem save_failure_never_success (o : Oracle) (e : String)
    (hs : o.saveResult = Except.error e) :
    (∀ d f j w, (status o d f j w).2.2 = Except.error (Err.ext e)) ∧
    (∀ clean c i lf ow op sv w,
      (run o clean c i lf ow (op : Option String) sv w).2.2 ≠ Except.ok ()) ∧
    (∀ c i lf ow op sv w fp np reg2,
      (loadReg w).nodes = [] → o.faucetBinPath = Except.ok fp →
      o.nodeBinPath = Except.ok np →
      o.runNetworkResult
        { faucet_bin_path := fp, interval := i, join := false, node_count := c,
          owner := ow, owner_prefix := op, peers := none, safenode_bin_path := np,
          skip_validation := sv, log_format := lf } (loadReg w) = Except.ok reg2 →
      run o false c i lf ow op sv w =
        ([Event.loadRegistry, Event.getBinPath ReleaseType.faucet,
          Event.getBinPath ReleaseType.safenode,
          Event.runNetwork
            { faucet_bin_path := fp, interval := i, join := false, node_count := c,
              owner := ow, owner_prefix := op, peers := none, safenode_bin_path := np,
              skip_validation := sv, log_format := lf },
          Event.saveRegistry], w, Except.error (Err.ext e))) := by
  refine ⟨?_, ?_, ?_⟩
  · intro d f j w
    simp [status, status_report, M.bind, loadRegistryM, saveRegistryM, hs]
  · intro clean c i lf ow op sv w
    unfold run
    simp only [M.bind_def, M.pure_def]
    cases clean
    · simp only [Bool.false_eq_true, if_false]
      apply M.bind_ne_ok
      intro r w1
      cases hb : r.nodes.isEmpty
      all_goals simp only [hb, Bool.false_eq_true, if_false, if_true]
      all_goals
        apply M.bind_ne_ok
        intro y w2
        apply M.bind_ne_ok
        intro fp w3
        apply M.bind_ne_ok
        intro np w4
        apply M.bind_ne_ok
        intro upd w5
        simp [saveRegistryM, hs]
    · simp only [if_true]
      apply M.bind_ne_ok
      intro u1 w1
      apply M.bind_ne_ok
      intro u2 w2
      apply M.bind_ne_ok
      intro y w3
      apply M.bind_ne_ok
      intro fp w4
      apply M.bind_ne_ok
      intro np w5
      apply M.bind_ne_ok
      intro upd w6
      simp [saveRegistryM, hs]
  · intro c i lf ow op sv w fp np reg2 hempty hf hn hr
    simp [run, M.bind, M.pure, loadRegistryM, getBinPathM, runNetworkM, saveRegistryM,
      throwM, hempty, hf, hn, hr, hs]

theorem save_failure_never_success_witness :
    ((status oracleSaveFails true true false worldRunning).2.2 =
        Except.error (Err.ext "could not write registry")) ∧
    ((run oracleSaveFails false 3 100 none none none false worldEmpty).2.2 ≠
        Except.ok ()) ∧
    (run oracleSaveFails false 3 100 none none none false worldEmpty =
      ([Event.loadRegistry, Event.getBinPath ReleaseType.faucet,
        Event.getBinPath ReleaseType.safenode,
        Event.runNetwork
          { faucet_bin_path := "/bin/faucet", interval := 100, join := false,
            node_count := 3, owner := none, owner_prefix := none, peers := none,
            safenode_bin_path := "/bin/safenode", skip_validation := false,
            log_format := none },
        Event.saveRegistry], worldEmpty,
        Except.error (Err.ext "could not write registry"))) :=
  ⟨(save_failure_never_success oracleSaveFails "could not write registry" rfl).1
      true true false worldRunning,
   (save_failure_never_success oracleSaveFails "could not write registry" rfl).2.1
      false 3 100 none none none false worldEmpty,
   (save_failure_never_success oracleSaveFails "could not write registry" rfl).2.2
      3 100 none none none false worldEmpty "/bin/faucet" "/bin/safenode"
      NodeRegistry.empty (by decide) rfl rfl rfl⟩

/-- Claim C7: for every non-empty registry, parsing the serialized registry
(`load` after `save`) recovers a registry whose record set is field-for-field
identical to the original. -/
theorem registry_save_load_roundtrip (reg : NodeRegistry) (_h : reg.nodes ≠ []) :
    NodeRegistry.load (NodeRegistry.save reg) = some reg := by
  simp [NodeRegistry.save, NodeRegistry.load, decodeRecords_encode, decodeStrs_encode]

theorem registry_save_load_roundtrip_witness :
    sampleRegistry.nodes ≠ [] ∧
    NodeRegistry.load (NodeRegistry.save sampleRegistry) = some sampleRegistry :=
  ⟨by decide, registry_save_load_roundtrip sampleRegistry (by decide)⟩

/-- Claim C8: `run` with `clean=true` removes the client data directory, performs
a full `kill` with `keep_directories=false` (removing the registry file of the
running network), and only then loads the registry; and with `clean=true` the
already-running error is never returned, whatever the world state. -/
theorem run_clean_kills_before_load (o : Oracle) (c i : Nat) (lf : Option LogFormat)
    (ow op : Option String) (sv : Bool) (w : World) (reg : NodeRegistry)
    (hdd : o.dataDirAvailable = true) (hcd : w.clientDataDir = true)
    (hrd : o.removeDirResult = Except.ok ()) (hw : w.registryFile = some reg)
    (hne : reg.nodes ≠ []) (hk : o.killNetworkResult reg false = Except.ok ())
    (hrf : o.removeFileResult = Except.ok ()) :
    (∃ rest w2 r, run o true c i lf ow op sv w =
      ([Event.removeClientDataDir, Event.loadRegistry, Event.killNetwork false,
        Event.removeRegistryFile, Event.loadRegistry] ++ rest, w2, r)) ∧
    (∀ w', (run o true c i lf ow op sv w').2.2 ≠ Except.error Err.alreadyRunning) := by
  constructor
  · unfold run
    simp only [M.bind_def, M.pure_def, if_true]
    have h0 : removeClientDataDirM o w =
        ([Event.removeClientDataDir], { w with clientDataDir := false },
          Except.ok ()) := by
      simp [removeClientDataDirM, hdd, hcd, hrd]
    rw [M.bind_ok h0]
    have h1 : kill o false { w with clientDataDir := false } =
        ([Event.loadRegistry, Event.killNetwork false, Event.removeRegistryFile],
          { registryFile := none, clientDataDir := false }, Except.ok ()) := by
      have := kill_eq_ok o false { w with clientDataDir := false } reg
        (by simpa using hw) hne hk hrf
      simpa using this
    rw [M.bind_ok h1]
    have h2 : loadRegistryM { registryFile := none, clientDataDir := false } =
        ([Event.loadRegistry], { registryFile := none, clientDataDir := false },
          Except.ok NodeRegistry.empty) := rfl
    rw [M.bind_ok h2]
    exact ⟨_, _, _, rfl⟩
  · exact noAR_run_clean o c i lf ow op sv

theorem run_clean_kills_before_load_witness :
    (∃ rest w2 r, run oracleOk true 3 100 none none none false worldRunning =
      ([Event.removeClientDataDir, Event.loadRegistry, Event.killNetwork false,
        Event.removeRegistryFile, Event.loadRegistry] ++ rest, w2, r)) ∧
    (run oracleOk true 3 100 none none none false worldRunning).2.2 ≠
      Except.error Err.alreadyRunning := by
  have h := run_clean_kills_before_load oracleOk 3 100 none none none false
    worldRunning sampleRegistry rfl rfl rfl rfl (by decide) rfl rfl
  exact ⟨h.1, h.2 worldRunning⟩

/-- Claim C9: when peer acquisition in `join` fails with `PeersNotObtained`, the
call proceeds and `run_network` is invoked with `peers=None`; when it fails with
any other error, `join` returns that error with a trace that ends at the peer
acquisition, before any `run_network` call. -/
theorem join_peers_handling (o : Oracle) (c i : Nat) (lf : Option LogFormat)
    (ow op : Option String) (sv : Bool) (w : World) (fp np : String)
    (hf : o.faucetBinPath = Except.ok fp) (hn : o.nodeBinPath = Except.ok np) :
    (∀ s, o.peersResult = Except.error (PeersError.other s) →
      join o c i lf ow op sv w =
        ([Event.loadRegistry, Event.getBinPath ReleaseType.faucet,
          Event.getBinPath ReleaseType.safenode, Event.getPeersFromArgs], w,
          Except.error (Err.ext s))) ∧
    (o.peersResult = Except.error PeersError.peersNotObtained →
      ∃ r, join o c i lf ow op sv w =
        ([Event.loadRegistry, Event.getBinPath ReleaseType.faucet,
          Event.getBinPath ReleaseType.safenode, Event.getPeersFromArgs,
          Event.runNetwork
            { faucet_bin_path := fp, interval := i, join := true, node_count := c,
              owner := ow, owner_prefix := op, peers := none, safenode_bin_path := np,
              skip_validation := sv, log_format := lf }], w, r)) :=
  ⟨fun s hp => join_eq_peers_other o c i lf ow op sv w fp np s hf hn hp,
   fun hp => join_eq_peers_not_obtained o c i lf ow op sv w fp np hf hn hp⟩

theorem join_peers_handling_witness :
    (join oraclePeersOther 3 100 none none none false worldEmpty =
      ([Event.loadRegistry, Event.getBinPath ReleaseType.faucet,
        Event.getBinPath ReleaseType.safenode, Event.getPeersFromArgs], worldEmpty,
        Except.error (Err.ext "failed to parse multiaddr"))) ∧
    (∃ r, join oraclePeersNotObtained 3 100 none none none false worldEmpty =
      ([Event.loadRegistry, Event.getBinPath ReleaseType.faucet,
        Event.getBinPath ReleaseType.safenode, Event.getPeersFromArgs,
        Event.runNetwork
          { faucet_bin_path := "/bin/faucet", interval := 100, join := true,
            node_count := 3, owner := none, owner_prefix := none, peers := none,
            safenode_bin_path := "/bin/safenode", skip_validation := false,
            log_format := none }], worldEmpty, r)) :=
  ⟨(join_peers_handling oraclePeersOther 3 100 none none none false worldEmpty
      "/bin/faucet" "/bin/safenode" rfl rfl).1 "failed to parse multiaddr" rfl,
   (join_peers_handling oraclePeersNotObtained 3 100 none none none false worldEmpty
      "/bin/faucet" "/bin/safenode" rfl rfl).2 rfl⟩

/-- Claim C10: `LogFormat::parse_from_str` inverts `as_str` on both variants, and
rejects every string other than `"default"` and `"json"` with the configuration
error. -/
theorem logformat_roundtrip :
    (∀ f : LogFormat, LogFormat.parse_from_str f.as_str = Except.ok f) ∧
    (∀ s : String, s ≠ "default" → s ≠ "json" →
      LogFormat.parse_from_str s = Except.error logFormatErrMsg) := by
  constructor
  · intro f
    cases f <;> rfl
  · intro s h1 h2
    unfold LogFormat.parse_from_str
    split
    · simp_all
    · simp_all
    · rfl

theorem logformat_roundtrip_witness :
    LogFormat.parse_from_str (LogFormat.as_str LogFormat.json) = Except.ok LogFormat.json ∧
    LogFormat.parse_from_str "verbose" = Except.error logFormatErrMsg :=
  ⟨logformat_roundtrip.1 LogFormat.json,
   logformat_roundtrip.2 "verbose" (by decide) (by decide)⟩
